import Mathlib

/-!
Verification of the Hagen–Poiseuille flow model from `src/blood.py`.
The float arithmetic of the script is modelled over the real numbers;
`np.pi` is modelled by `Real.pi`.  Operations that raise a Python
`ZeroDivisionError` (division with a zero denominator on scalars) are
modelled by `Option`-valued variants returning `none` exactly when the
denominator is zero.
-/

namespace Blood

/-- `Q_from(r_m, dP, eta, L)` from `src/blood.py` line 66-67:
`(np.pi * (r_m**4) * dP) / (8.0 * eta * L)`. -/
noncomputable def Q_from (r_m dP eta L : ℝ) : ℝ :=
  (Real.pi * r_m ^ 4 * dP) / (8.0 * eta * L)

/-- `dP_from(r_m, Q, eta, L)` from `src/blood.py` line 69-70:
`(8.0 * eta * L * Q) / (np.pi * (r_m**4))`. -/
noncomputable def dP_from (r_m Q eta L : ℝ) : ℝ :=
  (8.0 * eta * L * Q) / (Real.pi * r_m ^ 4)

/-- `to_mL_per_s(Q_m3_s)` from `src/blood.py` line 78-79: `Q_m3_s * 1_000_000.0`. -/
noncomputable def to_mL_per_s (Q_m3_s : ℝ) : ℝ :=
  Q_m3_s * 1000000.0

/-- Error-aware model of `Q_from` on scalars: Python raises
`ZeroDivisionError` exactly when the denominator `8.0 * eta * L` is zero. -/
noncomputable def Q_fromE (r_m dP eta L : ℝ) : Option ℝ :=
  if 8.0 * eta * L = 0 then none
  else some ((Real.pi * r_m ^ 4 * dP) / (8.0 * eta * L))

/-- Error-aware model of `dP_from` on scalars: Python raises
`ZeroDivisionError` exactly when the denominator `np.pi * r_m**4` is zero. -/
noncomputable def dP_fromE (r_m Q eta L : ℝ) : Option ℝ :=
  if Real.pi * r_m ^ 4 = 0 then none
  else some ((8.0 * eta * L * Q) / (Real.pi * r_m ^ 4))

/-- `Q_target_m3s = Q_from(0.001, dP_base, 0.004, L)` from `src/blood.py` line 143. -/
noncomputable def Q_target_m3s (dP_base L : ℝ) : ℝ :=
  Q_from 0.001 dP_base 0.004 L

/-- A named physiological scenario: a fixed radius (in mm) and viscosity pair. -/
structure Scenario where
  name : String
  r_mm : ℝ
  eta : ℝ

/-- The scenario catalog from `src/blood.py` lines 154-159. -/
noncomputable def scenarios : List Scenario :=
  [⟨"정상", 1.0, 0.004⟩,
   ⟨"동맥경화", 0.7, 0.005⟩,
   ⟨"고지혈증", 1.0, 0.005⟩,
   ⟨"탈수", 1.0, 0.006⟩]

/-- The list `dPs` built by the loop in `src/blood.py` lines 161-167:
for each scenario, `dP_from(r_mm/1000, Q_target_m3s, eta, L)`. -/
noncomputable def scenario_dPs (dP_base L : ℝ) : List ℝ :=
  scenarios.map fun s => dP_from (s.r_mm / 1000) (Q_target_m3s dP_base L) s.eta L

/-- Python `max` on a nonempty list (as called on `dPs` in line 194). -/
noncomputable def listMax : List ℝ → ℝ
  | [] => 0
  | x :: xs => xs.foldl max x

/-- `max(dPs)` from `src/blood.py` line 194. -/
noncomputable def maxDP (dP_base L : ℝ) : ℝ :=
  listMax (scenario_dPs dP_base L)

/-- The advisory flag of `src/blood.py` line 194: the warning is shown
iff `max(dPs) > 5333`. -/
def warnFlag (dP_base L : ℝ) : Prop :=
  maxDP dP_base L > 5333

theorem mL_example_value :
    to_mL_per_s (Q_from 0.001 1000 0.004 0.10) = Real.pi * 0.3125 := by
  unfold to_mL_per_s Q_from
  ring_nf

/-- Claim C1: for all r > 0, eta > 0, L > 0 and any real dP, `Q_from` returns
π·r⁴·dP / (8·η·L); and at r = 0.001 m, dP = 1000 Pa, eta = 0.004 Pa·s,
L = 0.10 m the result converted to mL/s equals
π·(0.001)⁴·1000/(8·0.004·0.10)·1e6, which lies in (0.98174, 0.98175),
i.e. ≈ 0.9817 mL/s. -/
theorem flowRate_formula_and_example :
    (∀ r dP eta L : ℝ, 0 < r → 0 < eta → 0 < L →
      Q_from r dP eta L = Real.pi * r ^ 4 * dP / (8 * eta * L)) ∧
    to_mL_per_s (Q_from 0.001 1000 0.004 0.10) =
      Real.pi * (0.001 : ℝ) ^ 4 * 1000 / (8 * 0.004 * 0.10) * 1000000 ∧
    (0.98174 : ℝ) < to_mL_per_s (Q_from 0.001 1000 0.004 0.10) ∧
    to_mL_per_s (Q_from 0.001 1000 0.004 0.10) < 0.98175 := by
  refine ⟨fun r dP eta L _ _ _ => by unfold Q_from; norm_num, ?_, ?_, ?_⟩
  · unfold to_mL_per_s Q_from
    ring_nf
  · rw [mL_example_value]
    nlinarith [Real.pi_gt_d6]
  · rw [mL_example_value]
    nlinarith [Real.pi_lt_d6]

/-- Witness for C1 at r = 0.001, dP = 1000, eta = 0.004, L = 0.10. -/
theorem flowRate_formula_and_example_witness :
    Q_from 0.001 1000 0.004 0.10 =
      Real.pi * (0.001 : ℝ) ^ 4 * 1000 / (8 * 0.004 * 0.10) :=
  flowRate_formula_and_example.1 0.001 1000 0.004 0.10
    (by norm_num) (by norm_num) (by norm_num)

/-- Claim C2: for every r > 0, eta > 0, L > 0 and every real dP,
`dP_from r (Q_from r dP eta L) eta L = dP` exactly: the two formulas are
exact algebraic inverses of one another. -/
theorem roundTrip (r dP eta L : ℝ) (hr : 0 < r) (he : 0 < eta) (hL : 0 < L) :
    dP_from r (Q_from r dP eta L) eta L = dP := by
  unfold Q_from dP_from
  field_simp

/-- Witness for C2 at r = 2, dP = 7, eta = 3, L = 5. -/
theorem roundTrip_witness : dP_from 2 (Q_from 2 7 3 5) 3 5 = 7 :=
  roundTrip 2 7 3 5 (by norm_num) (by norm_num) (by norm_num)

/-- Claim C6: for every r > 0, dP, eta > 0, L > 0,
`Q_from (2*r) dP eta L = 16 * Q_from r dP eta L`. -/
theorem scalingLaw (r dP eta L : ℝ) (hr : 0 < r) (he : 0 < eta) (hL : 0 < L) :
    Q_from (2 * r) dP eta L = 16 * Q_from r dP eta L := by
  unfold Q_from
  ring

/-- Witness for C6 at r = 3, dP = 11, eta = 2, L = 5. -/
theorem scalingLaw_witness : Q_from (2 * 3) 11 2 5 = 16 * Q_from 3 11 2 5 :=
  scalingLaw 3 11 2 5 (by norm_num) (by norm_num) (by norm_num)

/-- Claim C7: for every real Q, `to_mL_per_s Q = Q * 1e6`, and dividing the
result by 1e6 recovers Q exactly. -/
theorem unitConversion (Q : ℝ) :
    to_mL_per_s Q = Q * 1000000 ∧ to_mL_per_s Q / 1000000 = Q := by
  unfold to_mL_per_s
  constructor
  · norm_num
  · rw [mul_div_assoc]
    norm_num

/-- Witness for C7 at Q = 42. -/
theorem unitConversion_witness :
    to_mL_per_s 42 = 42 * 1000000 ∧ to_mL_per_s 42 / 1000000 = 42 :=
  unitConversion 42

theorem Q_fromE_none_iff (r dP eta L : ℝ) :
    Q_fromE r dP eta L = none ↔ eta = 0 ∨ L = 0 := by
  unfold Q_fromE
  split_ifs with h
  · simp only [true_iff]
    rcases mul_eq_zero.mp h with h1 | h1
    · exact Or.inl ((mul_eq_zero.mp h1).resolve_left (by norm_num))
    · exact Or.inr h1
  · simp only [reduceCtorEq, false_iff]
    intro hc
    apply h
    rcases hc with h1 | h1 <;> rw [h1] <;> ring

theorem dP_fromE_none_iff (r Q eta L : ℝ) :
    dP_fromE r Q eta L = none ↔ r = 0 := by
  unfold dP_fromE
  split_ifs with h
  · simp only [true_iff]
    have h4 : r ^ 4 = 0 := (mul_eq_zero.mp h).resolve_left Real.pi_ne_zero
    exact pow_eq_zero_iff (by norm_num) |>.mp h4
  · simp only [reduceCtorEq, false_iff]
    intro hc
    apply h
    rw [hc]
    ring

/-- Claim C3: `Q_fromE r dP 0 L` and `Q_fromE r dP eta 0` fail with a domain
error for every r, dP, eta, L; `dP_fromE 0 Q eta L` fails with a domain error
for every Q, eta, L; and these are the only error cases of the two
operations (`Q_fromE` fails iff eta = 0 or L = 0; `dP_fromE` fails iff r = 0). -/
theorem domainErrors :
    (∀ r dP L : ℝ, Q_fromE r dP 0 L = none) ∧
    (∀ r dP eta : ℝ, Q_fromE r dP eta 0 = none) ∧
    (∀ Q eta L : ℝ, dP_fromE 0 Q eta L = none) ∧
    (∀ r dP eta L : ℝ, Q_fromE r dP eta L = none ↔ eta = 0 ∨ L = 0) ∧
    (∀ r Q eta L : ℝ, dP_fromE r Q eta L = none ↔ r = 0) := by
  refine ⟨?_, ?_, ?_, Q_fromE_none_iff, dP_fromE_none_iff⟩
  · intro r dP L
    exact (Q_fromE_none_iff r dP 0 L).mpr (Or.inl rfl)
  · intro r dP eta
    exact (Q_fromE_none_iff r dP eta 0).mpr (Or.inr rfl)
  · intro Q eta L
    exact (dP_fromE_none_iff 0 Q eta L).mpr rfl

/-- Witness for C3 at r = 1, dP = 2, L = 3: viscosity zero raises. -/
theorem domainErrors_witness : Q_fromE 1 2 0 3 = none :=
  domainErrors.1 1 2 3

/-- Claim C8: for every dP, eta > 0, L > 0, the computation of `Q_from` at
r = 0 does not fail (no division by r occurs) and returns 0. -/
theorem zeroRadiusSafe (dP eta L : ℝ) (he : 0 < eta) (hL : 0 < L) :
    Q_fromE 0 dP eta L = some 0 ∧ Q_from 0 dP eta L = 0 := by
  have hz : Q_from 0 dP eta L = 0 := by
    unfold Q_from
    norm_num
  refine ⟨?_, hz⟩
  unfold Q_fromE
  rw [if_neg]
  · rw [show (Real.pi * (0:ℝ) ^ 4 * dP) / (8.0 * eta * L) = Q_from 0 dP eta L from rfl, hz]
  · positivity

/-- Witness for C8 at dP = 5, eta = 2, L = 3. -/
theorem zeroRadiusSafe_witness :
    Q_fromE 0 5 2 3 = some 0 ∧ Q_from 0 5 2 3 = 0 :=
  zeroRadiusSafe 5 2 3 (by norm_num) (by norm_num)

/-- Claim C5: `Q_from` is strictly increasing in r (for r > 0, fixed
dP > 0, eta > 0, L > 0) and in dP (fixed r > 0), and strictly decreasing in
eta (eta > 0) and in L (L > 0) for fixed r > 0, dP > 0. -/
theorem monotonicity :
    (∀ dP eta L r1 r2 : ℝ, 0 < dP → 0 < eta → 0 < L → 0 < r1 → r1 < r2 →
      Q_from r1 dP eta L < Q_from r2 dP eta L) ∧
    (∀ r eta L dP1 dP2 : ℝ, 0 < r → 0 < eta → 0 < L → dP1 < dP2 →
      Q_from r dP1 eta L < Q_from r dP2 eta L) ∧
    (∀ r dP L eta1 eta2 : ℝ, 0 < r → 0 < dP → 0 < L → 0 < eta1 → eta1 < eta2 →
      Q_from r dP eta2 L < Q_from r dP eta1 L) ∧
    (∀ r dP eta L1 L2 : ℝ, 0 < r → 0 < dP → 0 < eta → 0 < L1 → L1 < L2 →
      Q_from r dP eta L2 < Q_from r dP eta L1) := by
  refine ⟨?_, ?_, ?_, ?_⟩
  · intro dP eta L r1 r2 hdP he hL hr1 hlt
    unfold Q_from
    gcongr
  · intro r eta L dP1 dP2 hr he hL hlt
    unfold Q_from
    rw [div_lt_div_iff_of_pos_right (by positivity)]
    exact mul_lt_mul_of_pos_left hlt (by positivity)
  · intro r dP L eta1 eta2 hr hdP hL he1 hlt
    unfold Q_from
    apply div_lt_div_of_pos_left (by positivity) (by positivity)
    have h8L : (0:ℝ) < 8.0 * L := by norm_num [hL]
    calc 8.0 * eta1 * L = 8.0 * L * eta1 := by ring
    _ < 8.0 * L * eta2 := by
        exact mul_lt_mul_of_pos_left hlt (by positivity)
    _ = 8.0 * eta2 * L := by ring
  · intro r dP eta L1 L2 hr hdP he hL1 hlt
    unfold Q_from
    apply div_lt_div_of_pos_left (by positivity) (by positivity)
    exact mul_lt_mul_of_pos_left hlt (by positivity)

/-- Witness for C5: strict increase in r at dP = 1, eta = 1, L = 1, r from 1 to 2. -/
theorem monotonicity_witness : Q_from 1 1 1 1 < Q_from 2 1 1 1 :=
  monotonicity.1 1 1 1 1 2 (by norm_num) (by norm_num) (by norm_num)
    (by norm_num) (by norm_num)

theorem Q_target_value : Q_target_m3s 200 0.1 = Real.pi * 6.25e-8 := by
  unfold Q_target_m3s Q_from
  ring_nf

/-- Counterexample to C4: with baseline r = 1 mm, dP_base = 200 Pa,
eta = 0.004 Pa·s, L = 0.10 m, the computed target flow rate is not
approximately 7.854e-10 m³/s — it exceeds 100 times that value. -/
theorem scenario_counterexample :
    Q_target_m3s 200 0.1 > 100 * (7.854e-10 : ℝ) := by
  rw [Q_target_value]
  nlinarith [Real.pi_gt_three]

/-- Amended C4: with baseline r = 1 mm, dP_base = 200 Pa, eta = 0.004 Pa·s,
L = 0.10 m, the target flow rate equals π·6.25e-8 ≈ 1.9635e-7 m³/s
(≈ 0.19635 mL/s), and the arterial-stiffening (r = 0.7 mm, eta = 0.005)
required pressure drop equals 8·0.005·0.10·Q_target / (π·0.0007⁴). -/
theorem scenario_amended :
    Q_target_m3s 200 0.1 = Real.pi * 6.25e-8 ∧
    (1.9634e-7 : ℝ) < Q_target_m3s 200 0.1 ∧
    Q_target_m3s 200 0.1 < 1.9635e-7 ∧
    (0.1963 : ℝ) < to_mL_per_s (Q_target_m3s 200 0.1) ∧
    to_mL_per_s (Q_target_m3s 200 0.1) < 0.1964 ∧
    dP_from (0.7 / 1000) (Q_target_m3s 200 0.1) 0.005 0.1 =
      8 * 0.005 * 0.1 * Q_target_m3s 200 0.1 / (Real.pi * (0.0007 : ℝ) ^ 4) := by
  have h := Q_target_value
  refine ⟨h, ?_, ?_, ?_, ?_, ?_⟩
  · rw [h]; nlinarith [Real.pi_gt_d6]
  · rw [h]; nlinarith [Real.pi_lt_d6]
  · unfold to_mL_per_s; rw [h]; nlinarith [Real.pi_gt_d6]
  · unfold to_mL_per_s; rw [h]; nlinarith [Real.pi_lt_d6]
  · unfold dP_from
    norm_num

/-- Claim C9: the advisory flag is set iff the maximum of the four scenario
pressure-drop values exceeds the constant 5333 Pa. -/
theorem advisoryThreshold (dP_base L : ℝ) :
    warnFlag dP_base L ↔
      max (max (max (dP_from (1.0 / 1000) (Q_target_m3s dP_base L) 0.004 L)
                    (dP_from (0.7 / 1000) (Q_target_m3s dP_base L) 0.005 L))
               (dP_from (1.0 / 1000) (Q_target_m3s dP_base L) 0.005 L))
          (dP_from (1.0 / 1000) (Q_target_m3s dP_base L) 0.006 L) > 5333 := by
  unfold warnFlag maxDP scenario_dPs scenarios listMax
  simp [List.foldl]

/-- Witness for C9 at dP_base = 200, L = 0.1. -/
theorem advisoryThreshold_witness :
    warnFlag 200 0.1 ↔
      max (max (max (dP_from (1.0 / 1000) (Q_target_m3s 200 0.1) 0.004 0.1)
                    (dP_from (0.7 / 1000) (Q_target_m3s 200 0.1) 0.005 0.1))
               (dP_from (1.0 / 1000) (Q_target_m3s 200 0.1) 0.005 0.1))
          (dP_from (1.0 / 1000) (Q_target_m3s 200 0.1) 0.006 0.1) > 5333 :=
  advisoryThreshold 200 0.1

/-- Claim C10: each scenario's required pressure drop is independent of the
shared length L: for all L, L' > 0 and any dP_base, r_s > 0, eta_s,
`dP_from r_s (Q_target_m3s dP_base L) eta_s L` equals the same computation
with L' in place of L; and the 정상 scenario (r = 1 mm, eta = 0.004) always
requires exactly dP_base. -/
theorem lengthIndependence (dP_base L L' r_s eta_s : ℝ)
    (hL : 0 < L) (hL' : 0 < L') (hr : 0 < r_s) :
    dP_from r_s (Q_target_m3s dP_base L) eta_s L =
      dP_from r_s (Q_target_m3s dP_base L') eta_s L' ∧
    dP_from (1.0 / 1000) (Q_target_m3s dP_base L) 0.004 L = dP_base := by
  unfold dP_from Q_target_m3s Q_from
  constructor
  · field_simp
    ring
  · field_simp
    ring_nf

/-- Witness for C10 at dP_base = 200, L = 0.1, L' = 0.2, r_s = 0.0007, eta_s = 0.005. -/
theorem lengthIndependence_witness :
    dP_from 0.0007 (Q_target_m3s 200 0.1) 0.005 0.1 =
      dP_from 0.0007 (Q_target_m3s 200 0.2) 0.005 0.2 ∧
    dP_from (1.0 / 1000) (Q_target_m3s 200 0.1) 0.004 0.1 = 200 :=
  lengthIndependence 200 0.1 0.2 0.0007 0.005 (by norm_num) (by norm_num) (by norm_num)

end Blood
